import Mathlib

/-!
Shallow embedding of the fluent value-pipeline (`Flow` class, `FlowContext`
sentinel registry, `flow` factory) from the repository source.

Modelling conventions:
* JavaScript runtime values are modelled by the inductive `JSVal`.  A settled
  promise is `promOk v` (fulfilled) or `promErr e` (rejected): since the
  pipeline is strictly sequential, a pending computation is characterised by
  its eventual settlement, so promises are modelled by their settled outcome.
  Function values that are only inspected (never called) by the core are
  modelled opaquely by `funcv` carrying the AsyncFunction-shape flag.
* A transformer passed to `pipe` is either a callable or a plain constant
  (`Transformer`).  A callable receives its `this` binding and its argument
  list and either returns a value or throws (`Except.error`).  An async
  callable is one returning `promOk`/`promErr`.
* Error handlers are side-effecting callbacks; they are modelled by opaque
  tags (`Nat`, tag 0 is the default no-op handler installed at construction)
  and the engine records every handler invocation in a log.
* Every engine invocation returns, next to the new container, a `PipeLog`
  recording the debug-slot write, each transformer invocation (with its
  binding and argument list), and each error-handler invocation (handler tag
  with the delivered error).  This makes invocation counts and delivered
  errors observable facts of the model.
-/

namespace Helpers

/-- JavaScript runtime values, as far as the pipeline core inspects them. -/
inductive JSVal : Type where
  | undef
  | null
  | bool (b : Bool)
  | num (n : Int)
  | str (s : String)
  | sym (id : Nat)
  | arr (elems : List JSVal)
  | obj (thisField : Option JSVal) (argsField : Option JSVal)
  | promOk (v : JSVal)
  | promErr (e : JSVal)
  | funcv (isAsyncFn : Bool) (tag : Nat)

/-- JavaScript truthiness of a value. -/
def truthy : JSVal → Bool
  | JSVal.undef => false
  | JSVal.null => false
  | JSVal.bool b => b
  | JSVal.num n => n != 0
  | JSVal.str s => s != ""
  | _ => true

/-- Whether `typeof v` is the string "object" (null included, per JavaScript). -/
def typeofIsObject : JSVal → Bool
  | JSVal.null => true
  | JSVal.obj _ _ => true
  | JSVal.arr _ => true
  | JSVal.promOk _ => true
  | JSVal.promErr _ => true
  | _ => false

/-- Array.isArray. -/
def isArray : JSVal → Bool
  | JSVal.arr _ => true
  | _ => false

def isUndef : JSVal → Bool
  | JSVal.undef => true
  | _ => false

/-- Property access `v.this` (absent properties read as undefined). -/
def getThis : JSVal → JSVal
  | JSVal.obj t _ => t.getD JSVal.undef
  | _ => JSVal.undef

/-- Property access `v.args` (absent properties read as undefined). -/
def getArgs : JSVal → JSVal
  | JSVal.obj _ a => a.getD JSVal.undef
  | _ => JSVal.undef

/-- The nullish-coalescing operator `v ?? fallback`. -/
def nullish (v fallback : JSVal) : JSVal :=
  match v with
  | JSVal.undef => fallback
  | JSVal.null => fallback
  | x => x

/-- Strict equality `v === Symbol(id)` against a fixed unique symbol. -/
def strictEqSym (v : JSVal) (id : Nat) : Bool :=
  match v with
  | JSVal.sym j => j == id
  | _ => false

/-- Semantics of `await Promise.resolve(v)`: adopt a promise's settled
outcome, pass any other value through. -/
def awaitResolve : JSVal → Except JSVal JSVal
  | JSVal.promOk v => Except.ok v
  | JSVal.promErr e => Except.error e
  | v => Except.ok v

/-- Semantics of `Promise.resolve(v)` as a value: a promise is returned
unchanged, anything else is wrapped in a fulfilled promise. -/
def promiseResolve : JSVal → JSVal
  | JSVal.promOk v => JSVal.promOk v
  | JSVal.promErr e => JSVal.promErr e
  | v => JSVal.promOk v

/-- The promise an async function call evaluates to, from the settled
outcome of running its body. -/
def promOfOutcome : Except JSVal JSVal → JSVal
  | Except.ok v => JSVal.promOk v
  | Except.error e => JSVal.promErr e

/-- Unique-symbol id of `FlowContext.returnOriginal`. -/
def returnOriginalId : Nat := 0

/-- Unique-symbol id of `FlowContext.returnBoth`. -/
def returnBothId : Nat := 1

/-- The sentinel `FlowContext.returnOriginal` (exported as `flow.$orig`). -/
def FlowContext.returnOriginal : JSVal := JSVal.sym returnOriginalId

/-- The sentinel `FlowContext.returnBoth` (exported as `flow.$both`). -/
def FlowContext.returnBoth : JSVal := JSVal.sym returnBothId

/-- Source `isValidFunctionCallSpec`: `spec` must be truthy, of typeof
"object", and have a non-undefined `this` property or an array-valued
`args` property. -/
def isValidFunctionCallSpec (spec : JSVal) : Bool :=
  if !(truthy spec) || !(typeofIsObject spec) then false
  else !(isUndef (getThis spec)) || isArray (getArgs spec)

/-- A transformer argument of `pipe`: a callable (receiving its binding and
its argument list, returning a value or throwing) or a plain constant. -/
inductive Transformer : Type where
  | fn (f : JSVal → List JSVal → Except JSVal JSVal)
  | const (v : JSVal)

/-- The container: payload (settled value or promise), error handler
(opaque tag, 0 = default no-op) and the mode flag fixed at construction. -/
structure Flow : Type where
  value : JSVal
  errorHandler : Nat
  isAsync : Bool

/-- Observable events of one engine invocation. -/
structure PipeLog : Type where
  debugSlot : JSVal
  calls : List (JSVal × List JSVal)
  handlerCalls : List (Nat × JSVal)

/-- Source `Flow.prepareTransformationArgs`: if `args[0]` is truthy and a
valid function-call spec, binding is `args[0].this ?? null` and the call
arguments are `args[0].args ?? []` (the wrapped value is not prepended);
otherwise binding is null and the call arguments are `[value, ...args]`. -/
def prepareTransformationArgs (value : JSVal) (args : List JSVal) : JSVal × JSVal :=
  let a0 := args.head?.getD JSVal.undef
  if truthy a0 && isValidFunctionCallSpec a0 then
    (nullish (getThis a0) JSVal.null, nullish (getArgs a0) (JSVal.arr []))
  else
    (JSVal.null, JSVal.arr (value :: args))

/-- Source `Flow.executeTransformation`: a callable is applied with the
chosen binding and argument list (`Function.prototype.apply` throws a
TypeError before invoking if the argument list is not an array); a
constant is propagated unchanged.  Also returns the list of transformer
invocations performed. -/
def executeTransformation (t : Transformer) (context : JSVal) (callArgs : JSVal) :
    Except JSVal JSVal × List (JSVal × List JSVal) :=
  match t with
  | Transformer.fn f =>
    match callArgs with
    | JSVal.arr xs => (f context xs, [(context, xs)])
    | _ => (Except.error (JSVal.str "TypeError"), [])
  | Transformer.const v => (Except.ok v, [])

/-- Source `Flow.determineFinalValue`: inspect the last extra argument; the
returnOriginal sentinel selects the pre-transform value, the returnBoth
sentinel selects the pair `[result, original]`, anything else leaves the
computed result. -/
def determineFinalValue (result original : JSVal) (args : List JSVal) : JSVal :=
  let lastArgument := args.getLast?.getD JSVal.undef
  if strictEqSym lastArgument returnOriginalId then original
  else if strictEqSym lastArgument returnBothId then JSVal.arr [result, original]
  else result

/-- Source `Flow.handleSyncTransformation`: prepare arguments, execute the
transformer, shape the result, and wrap it in `new Flow(finalValue, false)`
(fresh default handler).  A synchronous throw propagates to the caller. -/
def handleSyncTransformation (c : Flow) (t : Transformer) (args : List JSVal) :
    Except JSVal Flow × List (JSVal × List JSVal) :=
  match executeTransformation t (prepareTransformationArgs c.value args).1
      (prepareTransformationArgs c.value args).2 with
  | (Except.error e, calls) => (Except.error e, calls)
  | (Except.ok r, calls) =>
    (Except.ok ⟨determineFinalValue r c.value args, 0, false⟩, calls)

/-- Settled outcome of the `asyncTransform` closure built by
`Flow.handleAsyncTransformation`: await the source payload, prepare
arguments from the settled value, execute the transformer, await its
result, then shape it; any failure along the way rejects the promise. -/
def asyncOutcome (c : Flow) (t : Transformer) (args : List JSVal) :
    Except JSVal JSVal × List (JSVal × List JSVal) :=
  match awaitResolve c.value with
  | Except.error e => (Except.error e, [])
  | Except.ok value =>
    match executeTransformation t (prepareTransformationArgs value args).1
        (prepareTransformationArgs value args).2 with
    | (Except.error e, calls) => (Except.error e, calls)
    | (Except.ok r, calls) =>
      match awaitResolve r with
      | Except.error e => (Except.error e, calls)
      | Except.ok rv => (Except.ok (determineFinalValue rv value args), calls)

/-- Source `Flow.handleAsyncTransformation`: invoke the async closure and
wrap its promise in `new Flow(asyncTransform(), this.isAsync)` (fresh
default handler).  Calling an async function never throws synchronously. -/
def handleAsyncTransformation (c : Flow) (t : Transformer) (args : List JSVal) :
    Flow × List (JSVal × List JSVal) :=
  (⟨promOfOutcome (asyncOutcome c t args).1, 0, c.isAsync⟩, (asyncOutcome c t args).2)

/-- Source `Flow.pipe`: publish the debug snapshot, dispatch on the mode
flag, and catch synchronous failures by invoking the source container's
error handler and returning `new Flow(undefined, this.isAsync)`.  Only the
synchronous path can throw. -/
def Flow.pipe (c : Flow) (t : Transformer) (args : List JSVal) : Flow × PipeLog :=
  if c.isAsync = false then
    match handleSyncTransformation c t args with
    | (Except.ok f, calls) => (f, ⟨c.value, calls, []⟩)
    | (Except.error e, calls) =>
      (⟨JSVal.undef, 0, c.isAsync⟩, ⟨c.value, calls, [(c.errorHandler, e)]⟩)
  else
    ((handleAsyncTransformation c t args).1,
      ⟨c.value, (handleAsyncTransformation c t args).2, []⟩)

/-- Source `Flow.get`: deferred containers resolve through
`Promise.resolve(this.value)`; immediate containers return the raw payload. -/
def Flow.get (c : Flow) : JSVal :=
  if c.isAsync then promiseResolve c.value else c.value

/-- Observation helper: the outcome a caller sees after awaiting the
accessor's result (for an immediate non-promise payload, the value itself). -/
def resolveFlow (c : Flow) : Except JSVal JSVal :=
  awaitResolve (Flow.get c)

/-- Source `Flow.catch`: installs the handler on the existing container in
place and returns that container. -/
def Flow.catch (c : Flow) (errorHandler : Nat) : Flow :=
  { c with errorHandler := errorHandler }

/-- Transformer built by `Flow.delay`: an async function that awaits a
timer (which cannot fail and does not affect the settled value) and then
returns the value unchanged, i.e. its call evaluates to a promise
fulfilled with its first argument. -/
def delayTransformer (_ms : Int) : Transformer :=
  Transformer.fn (fun _ callArgs =>
    Except.ok (JSVal.promOk (callArgs.head?.getD JSVal.undef)))

/-- Source `Flow.delay`: `this.pipe(async value => { await timer; return value })`. -/
def Flow.delay (c : Flow) (ms : Int) : Flow × PipeLog :=
  Flow.pipe c (delayTransformer ms) []

/-- Body of the retry transformer's attempt loop, indexed by the number of
remaining iterations (`remaining = attempts - i` for the source's counter
`i`): while iterations remain, `await Promise.resolve(value)`; a fulfilled
await returns the value, a rejecting await rethrows when this was the last
attempt (`i = attempts - 1`, i.e. one iteration remaining); when the loop
falls through (zero iterations remaining) the async function returns
undefined. -/
def retryGo (value : JSVal) : Nat → Except JSVal JSVal
  | 0 => Except.ok JSVal.undef
  | Nat.succ remaining =>
    match awaitResolve value with
    | Except.ok v => Except.ok v
    | Except.error e =>
      if remaining = 0 then Except.error e
      else retryGo value remaining

/-- Transformer built by `Flow.retry`: an async function whose call
evaluates to the promise of running the attempt loop on its first
argument, starting with all `attempts` iterations remaining. -/
def retryTransformer (attempts : Nat) : Transformer :=
  Transformer.fn (fun _ callArgs =>
    Except.ok (promOfOutcome (retryGo (callArgs.head?.getD JSVal.undef) attempts)))

/-- Source `Flow.retry`: `this.pipe(async value => { attempt loop })`. -/
def Flow.retry (c : Flow) (attempts : Nat) : Flow × PipeLog :=
  Flow.pipe c (retryTransformer attempts) []

/-- `v instanceof Promise`. -/
def isPromiseVal : JSVal → Bool
  | JSVal.promOk _ => true
  | JSVal.promErr _ => true
  | _ => false

/-- `typeof v === "function"`. -/
def isFunctionVal : JSVal → Bool
  | JSVal.funcv _ _ => true
  | _ => false

/-- `v.constructor.name === "AsyncFunction"` for a function value. -/
def isAsyncFunctionVal : JSVal → Bool
  | JSVal.funcv b _ => b
  | _ => false

/-- Source factory `flow`: classify the seed once (promise, or
async-shaped function, means deferred mode) and build the container with
the default no-op handler. -/
def flow (initialValue : JSVal) : Flow :=
  ⟨initialValue, 0,
    isPromiseVal initialValue ||
      (isFunctionVal initialValue && isAsyncFunctionVal initialValue)⟩

/-- The transformer `v => v * 2` from the specification's sentinel examples. -/
def doubler : Transformer :=
  Transformer.fn (fun _ callArgs =>
    match callArgs.head?.getD JSVal.undef with
    | JSVal.num n => Except.ok (JSVal.num (2 * n))
    | _ => Except.ok JSVal.undef)

/-! Helper lemmas shared by the claim theorems. -/

theorem truthy_of_isValidFunctionCallSpec (v : JSVal) :
    isValidFunctionCallSpec v = true → truthy v = true := by
  intro h
  cases hT : truthy v
  · rw [isValidFunctionCallSpec, hT] at h
    simp at h
  · rfl

theorem executeTransformation_calls_length (t : Transformer) (context callArgs : JSVal) :
    (executeTransformation t context callArgs).2.length ≤ 1 := by
  cases t
  · cases callArgs <;> simp [executeTransformation]
  · simp [executeTransformation]

theorem handleSync_calls (c : Flow) (t : Transformer) (args : List JSVal) :
    (handleSyncTransformation c t args).2 =
      (executeTransformation t (prepareTransformationArgs c.value args).1
        (prepareTransformationArgs c.value args).2).2 := by
  rw [handleSyncTransformation]
  split
  · next e calls heq => rw [heq]
  · next r calls heq => rw [heq]

theorem asyncOutcome_calls_length (c : Flow) (t : Transformer) (args : List JSVal) :
    (asyncOutcome c t args).2.length ≤ 1 := by
  rw [asyncOutcome]
  split
  · simp
  · next value heqv =>
    split
    · next e calls heq =>
      have h2 : calls = (executeTransformation t (prepareTransformationArgs value args).1
          (prepareTransformationArgs value args).2).2 := by rw [heq]
      simpa [h2] using executeTransformation_calls_length t
        (prepareTransformationArgs value args).1 (prepareTransformationArgs value args).2
    · next r calls heq =>
      have h2 : calls = (executeTransformation t (prepareTransformationArgs value args).1
          (prepareTransformationArgs value args).2).2 := by rw [heq]
      split
      · simpa [h2] using executeTransformation_calls_length t
          (prepareTransformationArgs value args).1 (prepareTransformationArgs value args).2
      · simpa [h2] using executeTransformation_calls_length t
          (prepareTransformationArgs value args).1 (prepareTransformationArgs value args).2

theorem pipe_sync_calls_eq (c : Flow) (t : Transformer) (args : List JSVal)
    (h : c.isAsync = false) :
    (Flow.pipe c t args).2.calls = (handleSyncTransformation c t args).2 := by
  rw [Flow.pipe, if_pos h]
  rcases hS : handleSyncTransformation c t args with ⟨res, calls⟩
  cases res <;> rfl

theorem pipe_async_calls_eq (c : Flow) (t : Transformer) (args : List JSVal)
    (h : ¬ c.isAsync = false) :
    (Flow.pipe c t args).2.calls = (asyncOutcome c t args).2 := by
  rw [Flow.pipe, if_neg h]
  rfl

theorem handleSync_ok_shape (c : Flow) (t : Transformer) (args : List JSVal)
    (f : Flow) (calls : List (JSVal × List JSVal))
    (h : handleSyncTransformation c t args = (Except.ok f, calls)) :
    f.errorHandler = 0 ∧ f.isAsync = false := by
  rw [handleSyncTransformation] at h
  split at h
  · injection h with h1 h2
    simp at h1
  · injection h with h1 h2
    injection h1 with h3
    subst h3
    exact ⟨rfl, rfl⟩

/-! Claim theorems. -/

/-- C1: on an immediate-mode container, any synchronous failure of a pipe
stage is caught: the source container's registered handler is invoked
exactly once with the raised error and `pipe` returns a same-mode container
with an undefined payload; a failure inside a deferred-mode pending
computation is never delivered to the handler and surfaces only when the
resulting pending computation is resolved. -/
theorem pipe_sync_failure_isolation (c : Flow) (t : Transformer) (args : List JSVal) :
    (∀ e calls, c.isAsync = false →
      handleSyncTransformation c t args = (Except.error e, calls) →
      Flow.pipe c t args =
        (⟨JSVal.undef, 0, false⟩, ⟨c.value, calls, [(c.errorHandler, e)]⟩)) ∧
    (c.isAsync = true → (Flow.pipe c t args).2.handlerCalls = []) ∧
    (∀ e, c.isAsync = true → c.value = JSVal.promErr e →
      resolveFlow (Flow.pipe c t args).1 = Except.error e) := by
  refine ⟨?_, ?_, ?_⟩
  · intro e calls hA hS
    simp [Flow.pipe, hA, hS]
  · intro hA
    simp [Flow.pipe, hA]
  · intro e hA hv
    simp [Flow.pipe, hA, handleAsyncTransformation, asyncOutcome, hv, resolveFlow,
      Flow.get, promiseResolve, promOfOutcome, awaitResolve]

/-- C1 witness: a throwing transformer on an immediate container with
handler tag 5 delivers the error to that handler once and yields an
undefined immediate payload; on a rejected deferred container no handler
runs and the rejection surfaces at resolution. -/
theorem pipe_sync_failure_isolation_witness :
    Flow.pipe ⟨JSVal.num 1, 5, false⟩
        (Transformer.fn (fun _ _ => Except.error (JSVal.str "boom"))) [] =
      (⟨JSVal.undef, 0, false⟩,
        ⟨JSVal.num 1, [(JSVal.null, [JSVal.num 1])], [(5, JSVal.str "boom")]⟩) ∧
    (Flow.pipe ⟨JSVal.promErr (JSVal.str "bad"), 3, true⟩
        (Transformer.fn (fun _ _ => Except.error (JSVal.str "boom"))) []).2.handlerCalls = [] ∧
    resolveFlow (Flow.pipe ⟨JSVal.promErr (JSVal.str "bad"), 3, true⟩
        (Transformer.fn (fun _ _ => Except.error (JSVal.str "boom"))) []).1 =
      Except.error (JSVal.str "bad") :=
  ⟨(pipe_sync_failure_isolation _ _ _).1 (JSVal.str "boom")
      [(JSVal.null, [JSVal.num 1])] rfl rfl,
    (pipe_sync_failure_isolation _ _ _).2.1 rfl,
    (pipe_sync_failure_isolation _ _ _).2.2 (JSVal.str "bad") rfl rfl⟩

/-- C2 (code bug): `delay` is declared to return a deferred-mode container
(`Flow<T, true>`), but on an immediate-mode source the runtime mode flag of
the returned container is false — the payload is a promise, yet the
container stays in immediate mode; only an already-deferred source keeps
deferred mode. -/
theorem delay_immediate_source_keeps_sync_mode :
    (Flow.delay (flow (JSVal.num 5)) 10).1.isAsync = false ∧
    (Flow.delay (flow (JSVal.num 5)) 10).1.value = JSVal.promOk (JSVal.num 5) ∧
    (Flow.delay ⟨JSVal.promOk (JSVal.num 5), 0, true⟩ 10).1.isAsync = true :=
  ⟨rfl, rfl, rfl⟩

/-- C3: when the first extra argument is a valid function-call spec (an
object with a non-undefined `this` binding or an array-valued `args`
field), the call binding is its `this` defaulted to null and the call
arguments are exactly its `args` defaulted to empty (value not prepended);
in every other case the binding is null and the arguments are the wrapped
value followed by all extra arguments.  The transformer is applied with
exactly the prepared binding and argument list. -/
theorem prepareTransformationArgs_override (value : JSVal) (args : List JSVal) :
    (isValidFunctionCallSpec (args.head?.getD JSVal.undef) = true →
      prepareTransformationArgs value args =
        (nullish (getThis (args.head?.getD JSVal.undef)) JSVal.null,
          nullish (getArgs (args.head?.getD JSVal.undef)) (JSVal.arr []))) ∧
    (isValidFunctionCallSpec (args.head?.getD JSVal.undef) = false →
      prepareTransformationArgs value args = (JSVal.null, JSVal.arr (value :: args))) ∧
    (∀ (hdl : Nat) (f : JSVal → List JSVal → Except JSVal JSVal) (xs : List JSVal),
      (prepareTransformationArgs value args).2 = JSVal.arr xs →
      (Flow.pipe ⟨value, hdl, false⟩ (Transformer.fn f) args).2.calls =
        [((prepareTransformationArgs value args).1, xs)]) := by
  refine ⟨?_, ?_, ?_⟩
  · intro h
    simp [prepareTransformationArgs, h, truthy_of_isValidFunctionCallSpec _ h]
  · intro h
    simp [prepareTransformationArgs, h]
  · intro hdl f xs hxs
    rw [pipe_sync_calls_eq _ _ _ rfl, handleSync_calls]
    simp only [hxs]
    rfl

/-- C3 witness: an override spec `{this: 7, args: ["a"]}` binds 7 and calls
with exactly `["a"]`; a non-spec first extra argument falls back to
`[value, ...extra]` and the transformer is invoked with that list. -/
theorem prepareTransformationArgs_override_witness :
    prepareTransformationArgs (JSVal.num 1)
        [JSVal.obj (some (JSVal.num 7)) (some (JSVal.arr [JSVal.str "a"]))] =
      (JSVal.num 7, JSVal.arr [JSVal.str "a"]) ∧
    prepareTransformationArgs (JSVal.num 1) [JSVal.num 2, JSVal.num 3] =
      (JSVal.null, JSVal.arr [JSVal.num 1, JSVal.num 2, JSVal.num 3]) ∧
    (Flow.pipe ⟨JSVal.num 1, 0, false⟩
        (Transformer.fn (fun _ _ => Except.ok JSVal.undef)) [JSVal.num 2, JSVal.num 3]).2.calls =
      [(JSVal.null, [JSVal.num 1, JSVal.num 2, JSVal.num 3])] :=
  ⟨(prepareTransformationArgs_override (JSVal.num 1)
      [JSVal.obj (some (JSVal.num 7)) (some (JSVal.arr [JSVal.str "a"]))]).1 rfl,
    (prepareTransformationArgs_override (JSVal.num 1) [JSVal.num 2, JSVal.num 3]).2.1 rfl,
    (prepareTransformationArgs_override (JSVal.num 1) [JSVal.num 2, JSVal.num 3]).2.2
      0 (fun _ _ => Except.ok JSVal.undef) [JSVal.num 1, JSVal.num 2, JSVal.num 3] rfl⟩

/-- C4: result shaping inspects the last extra argument — the
returnOriginal sentinel discards the computed result in favour of the
pre-transform value, the returnBoth sentinel yields the pair
(result, original), anything else leaves the computed result; in
particular the spec's two concrete sentinel examples hold. -/
theorem determineFinalValue_sentinel_shaping (result original : JSVal) (args : List JSVal) :
    (args.getLast? = some FlowContext.returnOriginal →
      determineFinalValue result original args = original) ∧
    (args.getLast? = some FlowContext.returnBoth →
      determineFinalValue result original args = JSVal.arr [result, original]) ∧
    (strictEqSym (args.getLast?.getD JSVal.undef) returnOriginalId = false →
      strictEqSym (args.getLast?.getD JSVal.undef) returnBothId = false →
      determineFinalValue result original args = result) ∧
    Flow.get (Flow.pipe (flow (JSVal.num 5)) doubler [FlowContext.returnOriginal]).1 =
      JSVal.num 5 ∧
    Flow.get (Flow.pipe (flow (JSVal.num 5)) doubler [FlowContext.returnBoth]).1 =
      JSVal.arr [JSVal.num 10, JSVal.num 5] := by
  refine ⟨?_, ?_, ?_, rfl, rfl⟩
  · intro h
    simp [determineFinalValue, h, FlowContext.returnOriginal, strictEqSym,
      returnOriginalId]
  · intro h
    simp [determineFinalValue, h, FlowContext.returnBoth, strictEqSym,
      returnOriginalId, returnBothId]
  · intro h1 h2
    simp [determineFinalValue, h1, h2]

/-- C4 witness: both sentinel branches and the no-sentinel branch at
concrete inputs, plus the spec's concrete pipeline examples. -/
theorem determineFinalValue_sentinel_shaping_witness :
    determineFinalValue (JSVal.num 10) (JSVal.num 5) [FlowContext.returnOriginal] =
      JSVal.num 5 ∧
    determineFinalValue (JSVal.num 10) (JSVal.num 5) [FlowContext.returnBoth] =
      JSVal.arr [JSVal.num 10, JSVal.num 5] ∧
    determineFinalValue (JSVal.num 10) (JSVal.num 5) [JSVal.str "x"] = JSVal.num 10 ∧
    Flow.get (Flow.pipe (flow (JSVal.num 5)) doubler [FlowContext.returnOriginal]).1 =
      JSVal.num 5 :=
  ⟨(determineFinalValue_sentinel_shaping (JSVal.num 10) (JSVal.num 5)
      [FlowContext.returnOriginal]).1 rfl,
    (determineFinalValue_sentinel_shaping (JSVal.num 10) (JSVal.num 5)
      [FlowContext.returnBoth]).2.1 rfl,
    (determineFinalValue_sentinel_shaping (JSVal.num 10) (JSVal.num 5)
      [JSVal.str "x"]).2.2.1 rfl rfl,
    (determineFinalValue_sentinel_shaping (JSVal.num 10) (JSVal.num 5)
      [FlowContext.returnOriginal]).2.2.2.1⟩

/-- C5: on a deferred container whose pending computation settled as a
rejection, `retry(attempts)` (attempts ≥ 1) yields a deferred container
whose resolution re-raises exactly that rejection; no transformer is
invoked at all (the settled rejection short-circuits the engine before the
attempt loop), so in particular the upstream computation that produced the
value is never re-invoked. -/
theorem retry_rejected_deferred (e : JSVal) (hdl attempts : Nat) (_h1 : 1 ≤ attempts) :
    resolveFlow (Flow.retry ⟨JSVal.promErr e, hdl, true⟩ attempts).1 = Except.error e ∧
    (Flow.retry ⟨JSVal.promErr e, hdl, true⟩ attempts).2.calls = [] ∧
    (Flow.retry ⟨JSVal.promErr e, hdl, true⟩ attempts).1.isAsync = true :=
  ⟨rfl, rfl, rfl⟩

/-- C5 witness: one attempt over a rejection re-raises the same rejection
without any transformer invocation. -/
theorem retry_rejected_deferred_witness :
    1 ≤ 1 ∧
    resolveFlow (Flow.retry ⟨JSVal.promErr (JSVal.str "x"), 0, true⟩ 1).1 =
      Except.error (JSVal.str "x") ∧
    (Flow.retry ⟨JSVal.promErr (JSVal.str "x"), 0, true⟩ 1).2.calls = [] :=
  ⟨by decide, (retry_rejected_deferred (JSVal.str "x") 0 1 (by decide)).1,
    (retry_rejected_deferred (JSVal.str "x") 0 1 (by decide)).2.1⟩

/-- C6: `catch` changes only the error-handler field of the container
(payload and mode untouched) and the registered handler is local: any
container produced by a pipe stage carries the default no-op handler
(tag 0), and every handler invocation performed by a pipe stage uses the
source container's own handler. -/
theorem catch_mutates_only_handler (c : Flow) (hdl : Nat) (t : Transformer)
    (args : List JSVal) :
    (Flow.catch c hdl).value = c.value ∧
    (Flow.catch c hdl).isAsync = c.isAsync ∧
    (Flow.catch c hdl).errorHandler = hdl ∧
    (Flow.pipe c t args).1.errorHandler = 0 ∧
    (∀ p, p ∈ (Flow.pipe c t args).2.handlerCalls → p.1 = c.errorHandler) := by
  refine ⟨rfl, rfl, rfl, ?_, ?_⟩
  · rw [Flow.pipe]
    by_cases hA : c.isAsync = false
    · rw [if_pos hA]
      rcases hS : handleSyncTransformation c t args with ⟨res, calls⟩
      cases res with
      | error e => simp
      | ok f => simpa using (handleSync_ok_shape c t args f calls hS).1
    · rw [if_neg hA]
      rfl
  · rw [Flow.pipe]
    by_cases hA : c.isAsync = false
    · rw [if_pos hA]
      rcases hS : handleSyncTransformation c t args with ⟨res, calls⟩
      cases res with
      | error e =>
        intro p hp
        simp at hp
        rw [hp]
      | ok f =>
        intro p hp
        simp at hp
    · rw [if_neg hA]
      intro p hp
      simp at hp

/-- C6 witness: registering handler tag 5 changes only the handler; a
stage piped from a container carries the default handler 0; the handler
invoked by a failing stage is the source's own (tag 5). -/
theorem catch_mutates_only_handler_witness :
    (Flow.catch ⟨JSVal.num 1, 0, false⟩ 5).errorHandler = 5 ∧
    (Flow.catch ⟨JSVal.num 1, 0, false⟩ 5).value = JSVal.num 1 ∧
    (Flow.pipe ⟨JSVal.num 1, 5, false⟩ doubler []).1.errorHandler = 0 ∧
    ((5 : Nat), JSVal.str "boom").1 = (Flow.mk (JSVal.num 1) 5 false).errorHandler :=
  ⟨(catch_mutates_only_handler ⟨JSVal.num 1, 0, false⟩ 5 doubler []).2.2.1,
    (catch_mutates_only_handler ⟨JSVal.num 1, 0, false⟩ 5 doubler []).1,
    (catch_mutates_only_handler ⟨JSVal.num 1, 5, false⟩ 5 doubler []).2.2.2.1,
    (catch_mutates_only_handler ⟨JSVal.num 1, 5, false⟩ 5
        (Transformer.fn (fun _ _ => Except.error (JSVal.str "boom"))) []).2.2.2.2
      (5, JSVal.str "boom") (List.Mem.head _)⟩

/-- C7: the factory classifies the seed once at construction: a promise
seed, or a function seed shaped as an async function, yields deferred
mode; every other seed yields immediate mode; the payload is stored as
given and the default handler installed. -/
theorem flow_mode_classification (v : JSVal) :
    ((isPromiseVal v = true ∨ (isFunctionVal v = true ∧ isAsyncFunctionVal v = true)) →
      (flow v).isAsync = true) ∧
    (isPromiseVal v = false → (isFunctionVal v = false ∨ isAsyncFunctionVal v = false) →
      (flow v).isAsync = false) ∧
    (flow v).value = v ∧ (flow v).errorHandler = 0 := by
  refine ⟨?_, ?_, rfl, rfl⟩
  · rintro (h | ⟨h1, h2⟩)
    · simp [flow, h]
    · simp [flow, h1, h2]
  · intro hp hf
    rcases hf with h | h <;> simp [flow, hp, h]

/-- C7 witness: a fulfilled promise and an async-shaped function seed give
deferred mode; a plain function and a number give immediate mode. -/
theorem flow_mode_classification_witness :
    (flow (JSVal.promOk (JSVal.num 1))).isAsync = true ∧
    (flow (JSVal.funcv true 0)).isAsync = true ∧
    (flow (JSVal.funcv false 0)).isAsync = false ∧
    (flow (JSVal.num 3)).isAsync = false :=
  ⟨(flow_mode_classification _).1 (Or.inl rfl),
    (flow_mode_classification _).1 (Or.inr ⟨rfl, rfl⟩),
    (flow_mode_classification _).2.1 rfl (Or.inr rfl),
    (flow_mode_classification _).2.1 rfl (Or.inl rfl)⟩

/-- C8: one pipe stage performs at most one transformer invocation, and
the accessor is a pure projection of the stored payload: an immediate
container returns the stored payload itself and a deferred container
returns its promise-wrapped payload, the wrapping being idempotent — so
repeated resolution returns equal values (equally-settled awaitables) and
performs no further transformer invocations. -/
theorem resolution_idempotent_single_invocation (c : Flow) (t : Transformer)
    (args : List JSVal) :
    (Flow.pipe c t args).2.calls.length ≤ 1 ∧
    (c.isAsync = false → Flow.get c = c.value) ∧
    (c.isAsync = true → Flow.get c = promiseResolve c.value ∧
      promiseResolve (promiseResolve c.value) = promiseResolve c.value) := by
  refine ⟨?_, ?_, ?_⟩
  · by_cases hA : c.isAsync = false
    · rw [pipe_sync_calls_eq c t args hA, handleSync_calls]
      exact executeTransformation_calls_length ..
    · rw [pipe_async_calls_eq c t args hA]
      exact asyncOutcome_calls_length ..
  · intro h
    simp [Flow.get, h]
  · intro h
    refine ⟨by simp [Flow.get, h], ?_⟩
    cases c.value <;> rfl

/-- C8 witness: a concrete immediate stage performs at most one invocation
and both accessor characterizations hold at concrete containers. -/
theorem resolution_idempotent_single_invocation_witness :
    (Flow.pipe ⟨JSVal.num 2, 0, false⟩ doubler []).2.calls.length ≤ 1 ∧
    Flow.get ⟨JSVal.num 2, 0, false⟩ = JSVal.num 2 ∧
    Flow.get ⟨JSVal.promOk (JSVal.num 2), 0, true⟩ = JSVal.promOk (JSVal.num 2) :=
  ⟨(resolution_idempotent_single_invocation ⟨JSVal.num 2, 0, false⟩ doubler []).1,
    (resolution_idempotent_single_invocation ⟨JSVal.num 2, 0, false⟩ doubler []).2.1 rfl,
    ((resolution_idempotent_single_invocation ⟨JSVal.promOk (JSVal.num 2), 0, true⟩
        doubler []).2.2 rfl).1⟩

/-- C9: in the default call convention a trailing sentinel is not kept
out-of-band: a sentinel (or any symbol) passed as the only extra argument
appears in the transformer's positional argument list right after the
wrapped value, and the transformer is invoked with exactly that list,
while the sentinel still drives result shaping. -/
theorem sentinel_positional_argument (v r : JSVal) (k hdl : Nat)
    (f : JSVal → List JSVal → Except JSVal JSVal) :
    prepareTransformationArgs v [JSVal.sym k] =
      (JSVal.null, JSVal.arr [v, JSVal.sym k]) ∧
    (Flow.pipe ⟨v, hdl, false⟩ (Transformer.fn f) [JSVal.sym k]).2.calls =
      [(JSVal.null, [v, JSVal.sym k])] ∧
    determineFinalValue r v [FlowContext.returnOriginal] = v ∧
    determineFinalValue r v [FlowContext.returnBoth] = JSVal.arr [r, v] := by
  refine ⟨rfl, ?_, rfl, rfl⟩
  rw [pipe_sync_calls_eq _ _ _ rfl, handleSync_calls]
  rfl

/-- C10 counterexample: on a deferred container whose pending computation
is a rejection, `retry(0)` does not resolve to undefined — the rejection
propagates unchanged. -/
theorem retry_zero_rejected_counterexample :
    resolveFlow (Flow.retry ⟨JSVal.promErr (JSVal.str "boom"), 0, true⟩ 0).1 =
      Except.error (JSVal.str "boom") ∧
    resolveFlow (Flow.retry ⟨JSVal.promErr (JSVal.str "boom"), 0, true⟩ 0).1 ≠
      Except.ok JSVal.undef :=
  ⟨rfl, fun h => nomatch h⟩

/-- C10 (amended): `retry(0)` yields a container that resolves to
undefined on every immediate container and on every deferred container
whose pending computation fulfills, because the attempt loop runs zero
iterations and the async transformer falls through returning undefined;
on a rejecting deferred container the rejection propagates instead. -/
theorem retry_zero_resolves_undefined (c : Flow) :
    (c.isAsync = false → resolveFlow (Flow.retry c 0).1 = Except.ok JSVal.undef) ∧
    (∀ v, c.isAsync = true → awaitResolve c.value = Except.ok v →
      resolveFlow (Flow.retry c 0).1 = Except.ok JSVal.undef) ∧
    (∀ e, c.isAsync = true → c.value = JSVal.promErr e →
      resolveFlow (Flow.retry c 0).1 = Except.error e) := by
  refine ⟨?_, ?_, ?_⟩
  · intro h
    rw [Flow.retry, Flow.pipe, if_pos h]
    rfl
  · intro v h hv
    rw [Flow.retry, Flow.pipe, if_neg (by simp [h]), handleAsyncTransformation,
      asyncOutcome, hv]
    simp [executeTransformation, prepareTransformationArgs, retryTransformer, retryGo,
      determineFinalValue, promOfOutcome, resolveFlow, Flow.get, h, promiseResolve,
      awaitResolve, truthy, isValidFunctionCallSpec, strictEqSym, nullish]
  · intro e h hv
    rw [Flow.retry, Flow.pipe, if_neg (by simp [h])]
    simp [handleAsyncTransformation, asyncOutcome, hv, resolveFlow, Flow.get, h,
      promiseResolve, promOfOutcome, awaitResolve]

/-- C10 witness: an immediate container and a fulfilled deferred container
both resolve to undefined after `retry(0)`; a rejecting deferred container
re-raises its rejection. -/
theorem retry_zero_resolves_undefined_witness :
    resolveFlow (Flow.retry (flow (JSVal.num 3)) 0).1 = Except.ok JSVal.undef ∧
    resolveFlow (Flow.retry ⟨JSVal.promOk (JSVal.num 3), 0, true⟩ 0).1 =
      Except.ok JSVal.undef ∧
    resolveFlow (Flow.retry ⟨JSVal.promErr (JSVal.str "e"), 0, true⟩ 0).1 =
      Except.error (JSVal.str "e") :=
  ⟨(retry_zero_resolves_undefined (flow (JSVal.num 3))).1 rfl,
    (retry_zero_resolves_undefined ⟨JSVal.promOk (JSVal.num 3), 0, true⟩).2.1
      (JSVal.num 3) rfl rfl,
    (retry_zero_resolves_undefined ⟨JSVal.promErr (JSVal.str "e"), 0, true⟩).2.2
      (JSVal.str "e") rfl rfl⟩

end Helpers
